import Mathlib

/-!
Verification of the statistics and segmentation engine of the Survey-analyzer
repository (`src/survey_analyzer/statistics.py`, class `StatisticsCalculator`).

Modelling conventions:
* A pandas `DataFrame` is a list of column names together with a list of rows;
  each row is a list of cells aligned positionally with the column list.
* A cell is `na` (NaN / None), a rational number (Python floats and ints are
  modelled as exact rationals), or a string.
* Operations that can raise a Python exception (`KeyError`, `ZeroDivisionError`,
  `ValueError`) are modelled in the `Except String` monad; the error string
  names the Python exception.
* Fields of the comprehensive-statistics dictionary that no verified property
  mentions are omitted from the record: `date_range` (timestamp formatting),
  the `std_*` fields (sample standard deviations are square roots, hence
  irrational), and the satisfaction percentiles.  Likewise the `std` column of
  `analyze_by_segment`'s aggregation.  All fields involved in the properties
  below are modelled.
* Numeric aggregation (`mean`) follows pandas semantics: NaN cells are skipped
  and the mean of an empty selection is NaN (`none`).  Columns fed to numeric
  aggregation are assumed numeric-typed, as in the surveyed data model.
-/

/-- A cell of the data frame: missing (NaN/None), numeric, or text. -/
inductive Cell where
  | na : Cell
  | num : ℚ → Cell
  | str : String → Cell
deriving DecidableEq, Repr

/-- A pandas DataFrame: named columns and positionally aligned rows. -/
structure DataFrame where
  cols : List String
  rows : List (List Cell)
deriving DecidableEq, Repr

namespace SurveyAnalyzer

attribute [local semireducible] Rat.mul Rat.inv Rat.add Rat.sub

/-- Reading a single cell of a row by column name (`row[df.cols.indexOf c]`);
out-of-range or unknown-column reads yield `na` (operations guard membership
of the column before reading, mirroring pandas `KeyError` behaviour). -/
def getCellIn (df : DataFrame) (r : List Cell) (c : String) : Cell :=
  match df.cols.findIdx? (fun x => x = c) with
  | some i => r.getD i Cell.na
  | none => Cell.na

/-- The column `df[c]` as a list of cells, one per row. -/
def column (df : DataFrame) (c : String) : List Cell :=
  df.rows.map (fun r => getCellIn df r c)

/-- The numeric values of a list of cells; NaN and (for a numeric-typed
column, impossible) string cells are skipped, as pandas `mean` skips NaN. -/
def numericVals (cells : List Cell) : List ℚ :=
  cells.filterMap (fun x => match x with | Cell.num q => some q | _ => none)

/-- Mean of a list of rationals; `none` models pandas NaN for the empty mean. -/
def meanOpt (l : List ℚ) : Option ℚ :=
  if l.isEmpty then none else some (l.sum / (l.length : ℚ))

/-- The pandas comparison `cell >= t`: true only for numeric cells at least
`t`; NaN compares false, as in pandas. -/
def cellGeB (x : Cell) (t : ℚ) : Bool :=
  match x with
  | Cell.num q => decide (t ≤ q)
  | _ => false

/-- The pandas comparison `cell <= t`: true only for numeric cells at most
`t`; NaN compares false, as in pandas. -/
def cellLeB (x : Cell) (t : ℚ) : Bool :=
  match x with
  | Cell.num q => decide (q ≤ t)
  | _ => false

/-- Whether a cell is non-missing (pandas `notnull`). -/
def notNaB (x : Cell) : Bool :=
  match x with
  | Cell.na => false
  | _ => true

/-! ### Sentiment analysis (`StatisticsCalculator.get_sentiment_analysis`) -/

/-- The fixed positive-word list of `get_sentiment_analysis`. -/
def positive_words : List String :=
  ["excellent", "great", "amazing", "fantastic", "love", "perfect",
   "outstanding", "wonderful", "satisfied", "recommend", "exceeded"]

/-- The fixed negative-word list of `get_sentiment_analysis`. -/
def negative_words : List String :=
  ["poor", "bad", "terrible", "disappointed", "awful", "horrible",
   "worse", "not satisfied", "problem", "issue", "complaint"]

/-- Python `str.lower()`: the text's characters, each lower-cased.  (The
character list is used directly so that the definition reduces in the
kernel.) -/
def lowerData (s : String) : List Char :=
  s.data.map Char.toLower

/-- Python substring containment `w in t`, as character-list infix; `t` is
an already lower-cased character list. -/
def substrB (w : String) (t : List Char) : Bool :=
  decide (w.data <:+: t)

/-- Sentiment labels. -/
inductive Sentiment where
  | positive : Sentiment
  | neutral : Sentiment
  | negative : Sentiment
deriving DecidableEq, Repr

/-- Number of positive-list words occurring as substrings of the lower-cased
text (`sum(word in text_lower for word in positive_words)`). -/
def posCount (s : String) : ℕ :=
  positive_words.countP (fun w => substrB w (lowerData s))

/-- Number of negative-list words occurring as substrings of the lower-cased
text. -/
def negCount (s : String) : ℕ :=
  negative_words.countP (fun w => substrB w (lowerData s))

/-- The per-record `classify_sentiment` closure: missing feedback is neutral;
otherwise the positive- and negative-word match counts are compared.  A
numeric cell goes through Python `str()`, whose rendering (digits, sign, dot,
exponent) contains no word of either list, so it classifies neutral. -/
def classify_sentiment (x : Cell) : Sentiment :=
  match x with
  | Cell.na => Sentiment.neutral
  | Cell.num _ => Sentiment.neutral
  | Cell.str s =>
      if negCount s < posCount s then Sentiment.positive
      else if posCount s < negCount s then Sentiment.negative
      else Sentiment.neutral

/-- The dictionary returned by `get_sentiment_analysis` when a feedback
column exists. -/
structure SentimentSummary where
  positive : ℕ
  neutral : ℕ
  negative : ℕ
  positive_pct : ℚ
deriving DecidableEq, Repr

/-- The per-row sentiment labels (`df_copy['feedback'].apply(classify_sentiment)`). -/
def sentimentsOf (df : DataFrame) : List Sentiment :=
  (column df "feedback").map classify_sentiment

/-- The aggregated summary built by `get_sentiment_analysis` when a feedback
column exists; `positive_pct` divides by `len(df)`. -/
def sentimentSummaryOf (df : DataFrame) : SentimentSummary :=
  { positive := (sentimentsOf df).countP (fun s => s = Sentiment.positive)
    neutral := (sentimentsOf df).countP (fun s => s = Sentiment.neutral)
    negative := (sentimentsOf df).countP (fun s => s = Sentiment.negative)
    positive_pct :=
      (((sentimentsOf df).countP (fun s => s = Sentiment.positive) : ℚ)
        / (df.rows.length : ℚ)) * 100 }

/-- `StatisticsCalculator.get_sentiment_analysis`: `None` (here `Except.ok
none`) when no `feedback` column exists; otherwise each row's feedback is
classified and the counts are aggregated.  `positive_pct` divides by
`len(df)`, which raises `ZeroDivisionError` on an empty frame. -/
def get_sentiment_analysis (df : DataFrame) : Except String (Option SentimentSummary) :=
  if "feedback" ∈ df.cols then
    if df.rows.length = 0 then
      Except.error "ZeroDivisionError: division by zero"
    else
      Except.ok (some (sentimentSummaryOf df))
  else
    Except.ok none

/-! ### NPS (`StatisticsCalculator.calculate_nps`) -/

/-- `len(df[df[c] >= 9])`: number of rows whose cell in column `c` is ≥ 9. -/
def promotersCount (df : DataFrame) (c : String) : ℕ :=
  (column df c).countP (fun x => cellGeB x 9)

/-- `len(df[(df[c] >= 7) & (df[c] <= 8)])`. -/
def passivesCount (df : DataFrame) (c : String) : ℕ :=
  (column df c).countP (fun x => cellGeB x 7 && cellLeB x 8)

/-- `len(df[df[c] <= 6])`: number of rows whose cell in column `c` is ≤ 6. -/
def detractorsCount (df : DataFrame) (c : String) : ℕ :=
  (column df c).countP (fun x => cellLeB x 6)

/-- `StatisticsCalculator.calculate_nps`.  The `total == 0` early return
precedes any column access; for a non-empty frame, accessing a missing
column raises `KeyError`. -/
def calculate_nps (df : DataFrame) (nps_column : String) : Except String ℚ :=
  if df.rows.length = 0 then Except.ok 0
  else if nps_column ∈ df.cols then
    Except.ok ((((promotersCount df nps_column : ℚ) - (detractorsCount df nps_column : ℚ))
      / (df.rows.length : ℚ)) * 100)
  else Except.error ("KeyError: " ++ nps_column)

/-! ### Completion rate (`StatisticsCalculator._calculate_completion_rate`) -/

/-- Number of missing cells among the first `n` (= column count) positions of
a row; positions beyond the row's length read as missing. -/
def missingInRow (n : ℕ) (r : List Cell) : ℕ :=
  (List.range n).countP (fun i => !notNaB (r.getD i Cell.na))

/-- `df.isnull().sum().sum()`: total number of missing cells of the frame. -/
def missingCellCount (df : DataFrame) : ℕ :=
  (df.rows.map (fun r => missingInRow df.cols.length r)).sum

/-- `StatisticsCalculator._calculate_completion_rate` (the leading underscore
is dropped for Lean).  An empty frame returns `0.0` via the first guard; the
`total_cells > 0` conditional then computes the percentage, with its `else
100.0` branch reachable only for a frame with rows but zero columns. -/
def calculate_completion_rate (df : DataFrame) : ℚ :=
  if df.rows.length = 0 then 0
  else
    let total_cells : ℕ := df.rows.length * df.cols.length
    if 0 < total_cells then
      100 - ((missingCellCount df : ℚ) / (total_cells : ℚ)) * 100
    else 100

/-! ### Grouping (`df.groupby(key)[val]`): sorted distinct non-missing keys -/

/-- Lexicographic comparison of character lists by code point, modelling
string comparison for pandas' sorted groupby iteration. -/
def charListLeb : List Char → List Char → Bool
  | [], _ => true
  | _ :: _, [] => false
  | a :: as, b :: bs =>
      if a.toNat < b.toNat then true
      else if b.toNat < a.toNat then false
      else charListLeb as bs

/-- Boolean ordering on cells used for pandas' sorted groupby iteration;
survey grouping keys are strings, ordered lexicographically (numbers are
placed before strings to make the order total on `Cell`). -/
def cellLeb : Cell → Cell → Bool
  | Cell.na, _ => true
  | _, Cell.na => false
  | Cell.num a, Cell.num b => decide (a ≤ b)
  | Cell.num _, Cell.str _ => true
  | Cell.str _, Cell.num _ => false
  | Cell.str a, Cell.str b => charListLeb a.data b.data

/-- The ordering on cells as a relation. -/
def cellLe (a b : Cell) : Prop := cellLeb a b = true

instance : DecidableRel cellLe :=
  fun a b => inferInstanceAs (Decidable (cellLeb a b = true))

/-- The groupby keys: distinct non-missing values of the key column, in
sorted order (pandas `groupby` drops NaN keys and sorts the groups). -/
def groupKeys (df : DataFrame) (c : String) : List Cell :=
  List.insertionSort cellLe (((column df c).filter notNaB).dedup)

/-- The rows of the group keyed by `k`. -/
def groupRows (df : DataFrame) (keyCol : String) (k : Cell) : List (List Cell) :=
  df.rows.filter (fun r => decide (getCellIn df r keyCol = k))

/-- `df.groupby(keyCol)[valCol].mean()`: one (key, mean) pair per group, in
sorted key order; a group whose values are all missing has mean NaN. -/
def groupMeans (df : DataFrame) (keyCol valCol : String) : List (Cell × Option ℚ) :=
  (groupKeys df keyCol).map (fun k =>
    (k, meanOpt (numericVals ((groupRows df keyCol k).map (fun r => getCellIn df r valCol)))))

/-- Fold of `Series.idxmax` over the remaining pairs: the current best is
replaced only on a strictly larger defined value, so ties keep the earlier
(first) key. -/
def idxmaxAux : Cell × ℚ → List (Cell × Option ℚ) → Cell × ℚ
  | best, [] => best
  | best, (_, none) :: rest => idxmaxAux best rest
  | best, (k, some m) :: rest =>
      if best.2 < m then idxmaxAux (k, m) rest else idxmaxAux best rest

/-- `Series.idxmax()`: the first index attaining the maximal defined value;
raises `ValueError` when the series is empty or all-NaN. -/
def idxmax : List (Cell × Option ℚ) → Except String (Cell × ℚ)
  | [] => Except.error "ValueError: attempt to get argmax of an empty sequence"
  | (_, none) :: rest => idxmax rest
  | (k, some m) :: rest => Except.ok (idxmaxAux (k, m) rest)

/-- `Series.max()` with NaN skipped; NaN (`none`) when nothing is defined. -/
def seriesMaxO : List (Option ℚ) → Option ℚ
  | [] => none
  | none :: rest => seriesMaxO rest
  | some m :: rest =>
      match seriesMaxO rest with
      | none => some m
      | some m2 => some (max m m2)

/-! ### Comprehensive statistics (`calculate_comprehensive_stats`) -/

/-- Column mean with the source's absent-column default
(`df[c].mean() if c in df.columns else 0.0`); `none` models NaN. -/
def avgOf (df : DataFrame) (c : String) : Option ℚ :=
  if c ∈ df.cols then meanOpt (numericVals (column df c)) else some 0

/-- The best-segment block of `calculate_comprehensive_stats`: when both
columns exist, `idxmax` of the grouped means (which can raise `ValueError`)
and the series maximum; otherwise the `"N/A"` / `0.0` defaults. -/
def bestSegment (df : DataFrame) (keyCol valCol : String) : Except String (Cell × Option ℚ) :=
  if keyCol ∈ df.cols ∧ valCol ∈ df.cols then
    match idxmax (groupMeans df keyCol valCol) with
    | Except.error e => Except.error e
    | Except.ok p => Except.ok (p.1, seriesMaxO ((groupMeans df keyCol valCol).map Prod.snd))
  else Except.ok (Cell.str "N/A", some 0)

/-- The fields of the comprehensive-statistics dictionary covered by the
verified properties (see the header comment for the omitted fields).
`best_region` / `top_age_group` are groupby keys or the string `"N/A"`. -/
structure StatisticsRecord where
  total_responses : ℕ
  completion_rate : ℚ
  avg_satisfaction : Option ℚ
  avg_product_quality : Option ℚ
  avg_customer_service : Option ℚ
  avg_value : Option ℚ
  avg_nps : Option ℚ
  nps_score : ℚ
  promoters : ℕ
  passives : ℕ
  detractors : ℕ
  best_region : Cell
  best_region_score : Option ℚ
  top_age_group : Cell
  top_age_score : Option ℚ
deriving DecidableEq, Repr

/-- `StatisticsCalculator.calculate_comprehensive_stats`.  The dictionary
literal evaluates `calculate_nps(df)` unguarded (raising `KeyError` on a
non-empty frame without the NPS column), then the region and age-group
best-segment blocks run (each can raise `ValueError` via `idxmax`). -/
def calculate_comprehensive_stats (df : DataFrame) : Except String StatisticsRecord := do
  let nps ← calculate_nps df "likelihood_to_recommend"
  let region ← bestSegment df "region" "satisfaction"
  let age ← bestSegment df "age_group" "satisfaction"
  Except.ok
    { total_responses := df.rows.length
      completion_rate := calculate_completion_rate df
      avg_satisfaction := avgOf df "satisfaction"
      avg_product_quality := avgOf df "product_quality"
      avg_customer_service := avgOf df "customer_service"
      avg_value := avgOf df "value_for_money"
      avg_nps := avgOf df "likelihood_to_recommend"
      nps_score := nps
      promoters :=
        if "likelihood_to_recommend" ∈ df.cols then promotersCount df "likelihood_to_recommend" else 0
      passives :=
        if "likelihood_to_recommend" ∈ df.cols then passivesCount df "likelihood_to_recommend" else 0
      detractors :=
        if "likelihood_to_recommend" ∈ df.cols then detractorsCount df "likelihood_to_recommend" else 0
      best_region := region.1
      best_region_score := region.2
      top_age_group := age.1
      top_age_score := age.2 }

/-! ### Segment analysis (`StatisticsCalculator.analyze_by_segment`) -/

/-- The fixed numeric metric column list of `analyze_by_segment`. -/
def numeric_cols : List String :=
  ["satisfaction", "product_quality", "customer_service",
   "value_for_money", "likelihood_to_recommend"]

/-- `[col for col in numeric_cols if col in df.columns]`. -/
def availableCols (df : DataFrame) : List String :=
  numeric_cols.filter (fun c => decide (c ∈ df.cols))

/-- Round to the nearest integer, ties to even (numpy/pandas rounding). -/
def roundHalfEven (x : ℚ) : ℤ :=
  let f := ⌊x⌋
  if x - f < 1 / 2 then f
  else if (1 : ℚ) / 2 < x - f then f + 1
  else if Even f then f else f + 1

/-- `round(2)`: round to two decimal places, ties to even. -/
def round2 (x : ℚ) : ℚ := (roundHalfEven (x * 100) : ℚ) / 100

/-- One aggregated entry of the segment table: the rounded group mean of a
metric column (NaN as `none`) and pandas `count` of its non-missing cells.
The `std` aggregate of the source is omitted (see the header comment). -/
structure AggCell where
  mean : Option ℚ
  count : ℕ
deriving DecidableEq, Repr

/-- The table `df.groupby(seg)[available].agg(['mean','std','count']).round(2)`:
one row per sorted distinct non-missing segment value, one aggregate per
available metric column. -/
def segTable (df : DataFrame) (segment_column : String) :
    List (Cell × List (String × AggCell)) :=
  (groupKeys df segment_column).map (fun k =>
    (k, (availableCols df).map (fun c =>
      let cells := (groupRows df segment_column k).map (fun r => getCellIn df r c)
      (c, ⟨(meanOpt (numericVals cells)).map round2, cells.countP notNaB⟩))))

/-- `StatisticsCalculator.analyze_by_segment`: an empty table when no numeric
metric column is present (checked before the groupby, so a missing segment
column does not matter then); otherwise the groupby aggregation, which
raises `KeyError` if the segment column is missing. -/
def analyze_by_segment (df : DataFrame) (segment_column : String) :
    Except String (List (Cell × List (String × AggCell))) :=
  if (availableCols df).isEmpty then Except.ok []
  else if segment_column ∈ df.cols then Except.ok (segTable df segment_column)
  else Except.error ("KeyError: " ++ segment_column)

/-! ### Specification-side predicates for the arg-max and count properties -/

/-- The value of an optional (possibly-NaN) mean is at most `m`. -/
def optValLe (o : Option ℚ) (m : ℚ) : Prop :=
  match o with
  | none => True
  | some q => q ≤ m

instance (o : Option ℚ) (m : ℚ) : Decidable (optValLe o m) :=
  match o with
  | none => isTrue trivial
  | some q => inferInstanceAs (Decidable (q ≤ m))

/-- The value of an optional (possibly-NaN) mean is strictly below `m`. -/
def optValLt (o : Option ℚ) (m : ℚ) : Prop :=
  match o with
  | none => True
  | some q => q < m

instance (o : Option ℚ) (m : ℚ) : Decidable (optValLt o m) :=
  match o with
  | none => isTrue trivial
  | some q => inferInstanceAs (Decidable (q < m))

/-- Every defined mean in the list is at most `m`. -/
def AllSomeLe (l : List (Cell × Option ℚ)) (m : ℚ) : Prop :=
  ∀ p ∈ l, optValLe p.2 m

instance (l : List (Cell × Option ℚ)) (m : ℚ) : Decidable (AllSomeLe l m) :=
  inferInstanceAs (Decidable (∀ p ∈ l, optValLe p.2 m))

/-- The key `k` with mean `m` is the first entry of the (key, mean) list
attaining the maximal defined mean: every earlier entry's defined mean is
strictly smaller and every later one's is at most `m`.  This is the
claimed arg-max-with-first-tie-break property of `Series.idxmax`. -/
def IsFirstMax : List (Cell × Option ℚ) → Cell → ℚ → Prop
  | [], _, _ => False
  | p :: rest, k, m =>
      (p.1 = k ∧ p.2 = some m ∧ AllSomeLe rest m) ∨
      (optValLt p.2 m ∧ IsFirstMax rest k m)

instance IsFirstMax.instDecidable :
    (l : List (Cell × Option ℚ)) → (k : Cell) → (m : ℚ) → Decidable (IsFirstMax l k m)
  | [], _, _ => isFalse (fun h => h)
  | p :: rest, k, m =>
      haveI := IsFirstMax.instDecidable rest k m
      inferInstanceAs
        (Decidable ((p.1 = k ∧ p.2 = some m ∧ AllSomeLe rest m) ∨
          (optValLt p.2 m ∧ IsFirstMax rest k m)))

/-- `IsFirstMax` lifted to an optional score: a `none` (NaN) score never
qualifies. -/
def IsFirstMaxO (pairs : List (Cell × Option ℚ)) (k : Cell) : Option ℚ → Prop
  | some m => IsFirstMax pairs k m
  | none => False

instance (pairs : List (Cell × Option ℚ)) (k : Cell) (o : Option ℚ) :
    Decidable (IsFirstMaxO pairs k o) :=
  match o with
  | none => isFalse (fun h => h)
  | some m => inferInstanceAs (Decidable (IsFirstMax pairs k m))

/-- The `count` aggregates recorded for metric column `c` in one segment row,
summed (the column names of a row are distinct, so this reads the single
matching aggregate). -/
def rowCountOf (aggs : List (String × AggCell)) (c : String) : ℕ :=
  ((aggs.filter (fun p => p.1 = c)).map (fun p => p.2.count)).sum

/-- The sum over all segment rows of the `count` aggregate of column `c`. -/
def tableCountSum (t : List (Cell × List (String × AggCell))) (c : String) : ℕ :=
  (t.map (fun row => rowCountOf row.2 c)).sum

/-! ### Concrete datasets used as witnesses and counterexamples -/

/-- An empty dataset with a `satisfaction` column. -/
def dfEmptySat : DataFrame := ⟨["satisfaction"], []⟩

/-- A one-row dataset without the `likelihood_to_recommend` column. -/
def dfNoNps : DataFrame := ⟨["satisfaction"], [[Cell.num 5]]⟩

/-- An empty dataset carrying a `feedback` column. -/
def dfEmptyFeedback : DataFrame := ⟨["feedback"], []⟩

/-- An empty dataset carrying `region` and `satisfaction` columns. -/
def dfEmptyRegion : DataFrame := ⟨["region", "satisfaction"], []⟩

/-- A dataset whose single row has a segment value but a missing
`satisfaction` cell. -/
def dfMissingMetric : DataFrame :=
  ⟨["region", "satisfaction"], [[Cell.str "a", Cell.na]]⟩

/-- A two-row dataset on which `calculate_comprehensive_stats` succeeds with
both `region` and `satisfaction` present. -/
def dfRegions : DataFrame :=
  ⟨["region", "satisfaction", "likelihood_to_recommend"],
   [[Cell.str "a", Cell.num 3, Cell.num 9],
    [Cell.str "b", Cell.num 5, Cell.num 2]]⟩

/-- A three-row dataset with two segment values and no missing cells. -/
def dfSegments : DataFrame :=
  ⟨["region", "satisfaction"],
   [[Cell.str "a", Cell.num 3],
    [Cell.str "b", Cell.num 5],
    [Cell.str "a", Cell.num 4]]⟩

/-- A two-row dataset with a missing cell, for the completion-rate witness. -/
def dfHalfMissing : DataFrame := ⟨["satisfaction"], [[Cell.num 5], [Cell.na]]⟩

/-- The ten-record NPS scenario of the specification
(`likelihood_to_recommend = [9,9,9,8,8,7,6,5,3,2]`). -/
def dfNpsScenario : DataFrame :=
  ⟨["likelihood_to_recommend"],
   [[Cell.num 9], [Cell.num 9], [Cell.num 9], [Cell.num 8], [Cell.num 8],
    [Cell.num 7], [Cell.num 6], [Cell.num 5], [Cell.num 3], [Cell.num 2]]⟩

/-- A one-row dataset with a feedback text. -/
def dfFeedback : DataFrame := ⟨["feedback"], [[Cell.str "Great product, love it"]]⟩

/-- The statistics record computed on `dfRegions`. -/
def sRegions : StatisticsRecord :=
  { total_responses := 2
    completion_rate := 100
    avg_satisfaction := some 4
    avg_product_quality := some 0
    avg_customer_service := some 0
    avg_value := some 0
    avg_nps := some (11 / 2)
    nps_score := 0
    promoters := 1
    passives := 0
    detractors := 1
    best_region := Cell.str "b"
    best_region_score := some 5
    top_age_group := Cell.str "N/A"
    top_age_score := some 0 }

/-- The statistics record computed on the empty dataset `dfEmptySat`. -/
def sEmptySat : StatisticsRecord :=
  { total_responses := 0
    completion_rate := 0
    avg_satisfaction := none
    avg_product_quality := some 0
    avg_customer_service := some 0
    avg_value := some 0
    avg_nps := some 0
    nps_score := 0
    promoters := 0
    passives := 0
    detractors := 0
    best_region := Cell.str "N/A"
    best_region_score := some 0
    top_age_group := Cell.str "N/A"
    top_age_score := some 0 }

/-! ## Auxiliary lemmas -/

theorem charListLeb_total : ∀ as bs, charListLeb as bs = true ∨ charListLeb bs as = true := by
  intro as
  induction as with
  | nil => intro bs; left; rfl
  | cons a as ih =>
    intro bs
    cases bs with
    | nil => right; rfl
    | cons b bs =>
      by_cases h1 : a.toNat < b.toNat
      · left; simp [charListLeb, h1]
      · by_cases h2 : b.toNat < a.toNat
        · right; simp [charListLeb, h2]
        · rcases ih bs with h | h
          · left; simp [charListLeb, h1, h2, h]
          · right; simp [charListLeb, h1, h2, h]

theorem charListLeb_trans :
    ∀ as bs cs, charListLeb as bs = true → charListLeb bs cs = true →
      charListLeb as cs = true := by
  intro as
  induction as with
  | nil => intro bs cs _ _; rfl
  | cons a as ih =>
    intro bs cs hab hbc
    cases bs with
    | nil => exact absurd hab (by simp [charListLeb])
    | cons b bs =>
      cases cs with
      | nil => exact absurd hbc (by simp [charListLeb])
      | cons c cs =>
        by_cases h1 : a.toNat < b.toNat <;> by_cases h2 : b.toNat < c.toNat
        · simp [charListLeb, Nat.lt_trans h1 h2]
        · have h4 : ¬ c.toNat < b.toNat := by
            intro hc; simp [charListLeb, h2, hc] at hbc
          have heq : b.toNat = c.toNat :=
            Nat.le_antisymm (Nat.not_lt.mp h4) (Nat.not_lt.mp h2)
          simp [charListLeb, heq ▸ h1]
        · have h3 : ¬ b.toNat < a.toNat := by
            intro hc; simp [charListLeb, h1, hc] at hab
          have heq : a.toNat = b.toNat :=
            Nat.le_antisymm (Nat.not_lt.mp h3) (Nat.not_lt.mp h1)
          simp [charListLeb, heq ▸ h2]
        · have h3 : ¬ b.toNat < a.toNat := by
            intro hc; simp [charListLeb, h1, hc] at hab
          have h4 : ¬ c.toNat < b.toNat := by
            intro hc; simp [charListLeb, h2, hc] at hbc
          have hab' : charListLeb as bs = true := by
            simpa [charListLeb, h1, h3] using hab
          have hbc' : charListLeb bs cs = true := by
            simpa [charListLeb, h2, h4] using hbc
          have heq1 : a.toNat = b.toNat :=
            Nat.le_antisymm (Nat.not_lt.mp h3) (Nat.not_lt.mp h1)
          have heq2 : b.toNat = c.toNat :=
            Nat.le_antisymm (Nat.not_lt.mp h4) (Nat.not_lt.mp h2)
          have h5 : ¬ a.toNat < c.toNat := by rw [heq1, heq2]; exact Nat.lt_irrefl _
          have h6 : ¬ c.toNat < a.toNat := by rw [heq1, heq2]; exact Nat.lt_irrefl _
          simp [charListLeb, h5, h6, ih bs cs hab' hbc']

instance : IsTotal Cell cellLe where
  total a b := by
    cases a <;> cases b <;> simp [cellLe, cellLeb]
    · exact le_total _ _
    · exact charListLeb_total _ _

instance : IsTrans Cell cellLe where
  trans a b c hab hbc := by
    cases a <;> cases b <;> cases c <;> simp_all [cellLe, cellLeb]
    · exact le_trans hab hbc
    · exact charListLeb_trans _ _ _ hab hbc

theorem countP_sentiment_partition (l : List Sentiment) :
    l.countP (fun s => s = Sentiment.positive) + l.countP (fun s => s = Sentiment.neutral) +
      l.countP (fun s => s = Sentiment.negative) = l.length := by
  induction l with
  | nil => simp
  | cons a l ih => cases a <;> simp [List.countP_cons] <;> omega

theorem missingInRow_le (n : ℕ) (r : List Cell) : missingInRow n r ≤ n := by
  have h := List.countP_le_length (l := List.range n) (p := fun i => !notNaB (r.getD i Cell.na))
  simpa [missingInRow] using h

theorem missingCellCount_le (df : DataFrame) :
    missingCellCount df ≤ df.rows.length * df.cols.length := by
  have h := List.sum_le_card_nsmul (df.rows.map fun r => missingInRow df.cols.length r)
    df.cols.length (by
      intro x hx
      obtain ⟨r, _, rfl⟩ := List.mem_map.mp hx
      exact missingInRow_le _ _)
  simpa [missingCellCount, smul_eq_mul] using h

theorem isFirstMax_head_le {rest : List (Cell × Option ℚ)} {k k0 : Cell} {m q0 : ℚ}
    (h : IsFirstMax ((k0, some q0) :: rest) k m) : q0 ≤ m := by
  rcases h with ⟨_, h2, _⟩ | ⟨h1, _⟩
  · injection h2 with h2; exact le_of_eq h2
  · exact le_of_lt h1

theorem idxmaxAux_isFirstMax :
    ∀ (rest : List (Cell × Option ℚ)) (k : Cell) (m : ℚ),
      IsFirstMax ((k, some m) :: rest) (idxmaxAux (k, m) rest).1 (idxmaxAux (k, m) rest).2 := by
  intro rest
  induction rest with
  | nil =>
    intro k m
    exact Or.inl ⟨rfl, rfl, fun p hp => absurd hp (List.not_mem_nil p)⟩
  | cons p rest ih =>
    intro k m
    obtain ⟨k2, o⟩ := p
    cases o with
    | none =>
      have h := ih k m
      rw [show idxmaxAux (k, m) ((k2, none) :: rest) = idxmaxAux (k, m) rest from rfl]
      rcases h with ⟨h1, h2, h3⟩ | ⟨h1, h2⟩
      · refine Or.inl ⟨h1, h2, ?_⟩
        intro q hq
        rcases List.mem_cons.mp hq with rfl | hq
        · exact trivial
        · exact h3 q hq
      · exact Or.inr ⟨h1, Or.inr ⟨trivial, h2⟩⟩
    | some m2 =>
      by_cases hlt : m < m2
      · rw [show idxmaxAux (k, m) ((k2, some m2) :: rest) = idxmaxAux (k2, m2) rest from by
          simp [idxmaxAux, hlt]]
        have h := ih k2 m2
        have hb : m2 ≤ (idxmaxAux (k2, m2) rest).2 := isFirstMax_head_le h
        exact Or.inr ⟨lt_of_lt_of_le hlt hb, h⟩
      · rw [show idxmaxAux (k, m) ((k2, some m2) :: rest) = idxmaxAux (k, m) rest from by
          simp [idxmaxAux, hlt]]
        have h := ih k m
        have hm2 : m2 ≤ m := not_lt.mp hlt
        rcases h with ⟨h1, h2, h3⟩ | ⟨h1, h2⟩
        · refine Or.inl ⟨h1, h2, ?_⟩
          intro q hq
          rcases List.mem_cons.mp hq with rfl | hq
          · have hm : m = (idxmaxAux (k, m) rest).2 := by injection h2
            exact le_trans hm2 (le_of_eq hm)
          · exact h3 q hq
        · exact Or.inr ⟨h1, Or.inr ⟨lt_of_le_of_lt hm2 h1, h2⟩⟩

theorem idxmax_isFirstMax :
    ∀ (pairs : List (Cell × Option ℚ)) (k : Cell) (m : ℚ),
      idxmax pairs = Except.ok (k, m) → IsFirstMax pairs k m := by
  intro pairs
  induction pairs with
  | nil => intro k m h; simp [idxmax] at h
  | cons p rest ih =>
    intro k m h
    obtain ⟨k0, o⟩ := p
    cases o with
    | none =>
      have h' := ih k m (by simpa [idxmax] using h)
      exact Or.inr ⟨trivial, h'⟩
    | some m0 =>
      have he : idxmaxAux (k0, m0) rest = (k, m) := by simpa [idxmax] using h
      have h2 := idxmaxAux_isFirstMax rest k0 m0
      rw [he] at h2
      exact h2

theorem seriesMaxO_mem :
    ∀ (l : List (Option ℚ)) (m : ℚ), seriesMaxO l = some m → some m ∈ l := by
  intro l
  induction l with
  | nil => intro m h; simp [seriesMaxO] at h
  | cons o rest ih =>
    intro m h
    cases o with
    | none => exact List.mem_cons_of_mem _ (ih m (by simpa [seriesMaxO] using h))
    | some a =>
      cases hrec : seriesMaxO rest with
      | none =>
        rw [seriesMaxO, hrec] at h
        injection h with h
        exact h ▸ List.mem_cons_self _ _
      | some m2 =>
        rw [seriesMaxO, hrec] at h
        injection h with h
        rcases max_choice a m2 with he | he
        · rw [he] at h
          exact h ▸ List.mem_cons_self _ _
        · rw [he] at h
          exact List.mem_cons_of_mem _ (ih m (h ▸ hrec))

theorem isFirstMax_seriesMax :
    ∀ (l : List (Cell × Option ℚ)) (k : Cell) (m : ℚ),
      IsFirstMax l k m → seriesMaxO (l.map Prod.snd) = some m := by
  intro l
  induction l with
  | nil => intro k m h; exact absurd h (fun h => h)
  | cons p rest ih =>
    intro k m h
    rcases h with ⟨h1, h2, h3⟩ | ⟨h1, h2⟩
    · rw [List.map_cons, h2]
      cases hrec : seriesMaxO (rest.map Prod.snd) with
      | none => simp [seriesMaxO, hrec]
      | some m2 =>
        have hmem := seriesMaxO_mem _ _ hrec
        obtain ⟨p2, hp2, hsnd⟩ := List.mem_map.mp hmem
        have hle := h3 p2 hp2
        rw [hsnd] at hle
        simp [seriesMaxO, hrec, max_eq_left hle]
    · have hrec := ih k m h2
      rw [List.map_cons]
      cases ho : p.2 with
      | none => simp [seriesMaxO, hrec]
      | some q =>
        have hq : q < m := by rw [ho] at h1; exact h1
        simp [seriesMaxO, hrec, max_eq_right (le_of_lt hq)]

theorem groupMeans_keys (df : DataFrame) (keyCol valCol : String) :
    (groupMeans df keyCol valCol).map Prod.fst = groupKeys df keyCol := by
  simp [groupMeans, List.map_map, Function.comp_def]

theorem groupKeys_sorted (df : DataFrame) (c : String) :
    List.Sorted cellLe (groupKeys df c) :=
  List.sorted_insertionSort cellLe _

theorem mem_groupKeys (df : DataFrame) (c : String) (k : Cell) :
    k ∈ groupKeys df c ↔ k ∈ column df c ∧ notNaB k = true := by
  simp [groupKeys, List.mem_dedup, List.mem_filter]

theorem bestSegment_present (df : DataFrame) (keyCol valCol : String)
    (hb : keyCol ∈ df.cols ∧ valCol ∈ df.cols) (p : Cell × Option ℚ)
    (h : bestSegment df keyCol valCol = Except.ok p) :
    IsFirstMaxO (groupMeans df keyCol valCol) p.1 p.2 := by
  unfold bestSegment at h
  rw [if_pos hb] at h
  cases hi : idxmax (groupMeans df keyCol valCol) with
  | error e => rw [hi] at h; exact absurd h (by simp)
  | ok q =>
    rw [hi] at h
    injection h with h
    obtain ⟨k, m⟩ := q
    have hfm := idxmax_isFirstMax _ _ _ hi
    have hsm := isFirstMax_seriesMax _ _ _ hfm
    rw [← h]
    show IsFirstMaxO (groupMeans df keyCol valCol) k (seriesMaxO _)
    rw [hsm]
    exact hfm

theorem bestSegment_absent (df : DataFrame) (keyCol valCol : String)
    (hb : ¬(keyCol ∈ df.cols ∧ valCol ∈ df.cols)) (p : Cell × Option ℚ)
    (h : bestSegment df keyCol valCol = Except.ok p) :
    p.1 = Cell.str "N/A" ∧ p.2 = some 0 := by
  unfold bestSegment at h
  rw [if_neg hb] at h
  injection h with h
  rw [← h]
  exact ⟨rfl, rfl⟩

theorem comp_stats_fields (df : DataFrame) (s : StatisticsRecord)
    (h : calculate_comprehensive_stats df = Except.ok s) :
    ∃ pr pa : Cell × Option ℚ,
      bestSegment df "region" "satisfaction" = Except.ok pr ∧
      bestSegment df "age_group" "satisfaction" = Except.ok pa ∧
      s.best_region = pr.1 ∧ s.best_region_score = pr.2 ∧
      s.top_age_group = pa.1 ∧ s.top_age_score = pa.2 := by
  unfold calculate_comprehensive_stats at h
  cases hn : calculate_nps df "likelihood_to_recommend" with
  | error e => rw [hn] at h; exact absurd h (by simp [Bind.bind, Except.bind])
  | ok nps =>
    rw [hn] at h
    cases hr : bestSegment df "region" "satisfaction" with
    | error e => rw [hr] at h; exact absurd h (by simp [Bind.bind, Except.bind])
    | ok pr =>
      rw [hr] at h
      cases ha : bestSegment df "age_group" "satisfaction" with
      | error e => rw [ha] at h; exact absurd h (by simp [Bind.bind, Except.bind])
      | ok pa =>
        rw [ha] at h
        simp only [Bind.bind, Except.bind, Except.ok.injEq] at h
        refine ⟨pr, pa, rfl, rfl, ?_, ?_, ?_, ?_⟩ <;> rw [← h]

theorem sum_map_add {κ : Type} (l : List κ) (f g : κ → ℕ) :
    (l.map (fun k => f k + g k)).sum = (l.map f).sum + (l.map g).sum := by
  induction l with
  | nil => simp
  | cons a l ih => simp [ih]; omega

theorem sum_map_if_eq {κ : Type} [DecidableEq κ] :
    ∀ (keys : List κ), keys.Nodup → ∀ (x : κ), x ∈ keys → ∀ (c : ℕ),
      (keys.map (fun k => if x = k then c else 0)).sum = c := by
  intro keys
  induction keys with
  | nil => intro _ x hx; exact absurd hx (List.not_mem_nil x)
  | cons a ks ih =>
    intro hnd x hx c
    have hnd' := List.nodup_cons.mp hnd
    rcases List.mem_cons.mp hx with rfl | hx
    · have hz : (ks.map (fun k => if x = k then c else 0)).sum = 0 := by
        apply List.sum_eq_zero
        intro y hy
        obtain ⟨k, hk, rfl⟩ := List.mem_map.mp hy
        have : x ≠ k := fun he => hnd'.1 (he ▸ hk)
        simp [this]
      simp [hz]
    · have hxa : x ≠ a := fun he => hnd'.1 (he ▸ hx)
      simp [hxa, ih hnd'.2 x hx c]

theorem sum_countP_groups {α κ : Type} [DecidableEq κ] :
    ∀ (rows : List α) (keys : List κ), keys.Nodup →
      ∀ (key : α → κ), (∀ r ∈ rows, key r ∈ keys) → ∀ (p : α → Bool),
      (keys.map (fun k => (rows.filter (fun r => decide (key r = k))).countP p)).sum
        = rows.countP p := by
  intro rows
  induction rows with
  | nil => intro keys _ key _ p; simp
  | cons r rows ih =>
    intro keys hnd key hk p
    have hkey : key r ∈ keys := hk r (List.mem_cons_self r rows)
    have hsplit : ∀ k ∈ keys,
        ((r :: rows).filter (fun x => decide (key x = k))).countP p
          = (rows.filter (fun x => decide (key x = k))).countP p
            + (if key r = k then (if p r then 1 else 0) else 0) := by
      intro k _
      by_cases hkk : key r = k
      · simp [List.filter_cons, hkk, List.countP_cons]
      · simp [List.filter_cons, hkk]
    rw [List.map_congr_left hsplit, sum_map_add,
      ih keys hnd key (fun x hx => hk x (List.mem_cons_of_mem r hx)) p,
      sum_map_if_eq keys hnd (key r) hkey, List.countP_cons]

theorem rowCountOf_map_nodup :
    ∀ (l : List String), l.Nodup → ∀ c ∈ l, ∀ (f : String → AggCell),
      rowCountOf (l.map (fun x => (x, f x))) c = (f c).count := by
  intro l
  induction l with
  | nil => intro _ c hc; exact absurd hc (List.not_mem_nil c)
  | cons a ks ih =>
    intro hnd c hc f
    have hnd' := List.nodup_cons.mp hnd
    rcases List.mem_cons.mp hc with rfl | hc
    · have hz : (ks.map (fun x => (x, f x))).filter (fun p => decide (p.1 = c)) = [] := by
        rw [List.filter_eq_nil_iff]
        intro y hy
        obtain ⟨k, hk, rfl⟩ := List.mem_map.mp hy
        simp
        exact fun he => hnd'.1 (he ▸ hk)
      simp [rowCountOf, List.filter_cons, hz]
    · have hac : a ≠ c := fun he => hnd'.1 (he ▸ hc)
      have := ih hnd'.2 c hc f
      simpa [rowCountOf, List.filter_cons, hac] using this

theorem substr_satisfied_of_not_satisfied {t : List Char}
    (h : substrB "not satisfied" t = true) : substrB "satisfied" t = true := by
  simp only [substrB, decide_eq_true_eq] at h ⊢
  exact (show "satisfied".data <:+: "not satisfied".data by decide).trans h

/-! ## Claim theorems -/

/-- C1, counterexample: the completion rate of an empty dataset (zero rows,
one column) is `0.0`, not the claimed `100.0`; the `len(df) == 0` guard of
`_calculate_completion_rate` returns `0.0` before the `else 100.0` branch
can be reached. -/
theorem completion_rate_empty_counterexample :
    calculate_completion_rate dfEmptySat = 0 ∧ calculate_completion_rate dfEmptySat ≠ 100 :=
  ⟨rfl, by decide⟩

/-- C1, amended: `completion_rate` equals
`100 − missing_cell_count / total_cell_count × 100` whenever the dataset has
rows and columns, always lies in `[0, 100]`, and is exactly `0.0` (not
`100.0`) on a dataset with zero rows. -/
theorem completion_rate_amended (df : DataFrame) :
    (df.rows.length = 0 → calculate_completion_rate df = 0) ∧
    (df.rows.length ≠ 0 → df.cols.length ≠ 0 →
       calculate_completion_rate df =
         100 - ((missingCellCount df : ℚ) / ((df.rows.length * df.cols.length : ℕ) : ℚ)) * 100) ∧
    (0 ≤ calculate_completion_rate df ∧ calculate_completion_rate df ≤ 100) := by
  refine ⟨?_, ?_, ?_⟩
  · intro h; simp [calculate_completion_rate, h]
  · intro h0 hc
    have ht : 0 < df.rows.length * df.cols.length :=
      Nat.mul_pos (Nat.pos_of_ne_zero h0) (Nat.pos_of_ne_zero hc)
    simp [calculate_completion_rate, h0, ht]
  · by_cases h0 : df.rows.length = 0
    · simp [calculate_completion_rate, h0]
    · by_cases hc : df.cols.length = 0
      · simp [calculate_completion_rate, h0, hc]
      · have ht : 0 < df.rows.length * df.cols.length :=
          Nat.mul_pos (Nat.pos_of_ne_zero h0) (Nat.pos_of_ne_zero hc)
        have hrate : calculate_completion_rate df =
            100 - ((missingCellCount df : ℚ) / ((df.rows.length * df.cols.length : ℕ) : ℚ)) * 100 := by
          simp [calculate_completion_rate, h0, ht]
        rw [hrate]
        have hQt : (0:ℚ) < ((df.rows.length * df.cols.length : ℕ) : ℚ) := by exact_mod_cast ht
        have hm : (missingCellCount df : ℚ) ≤ ((df.rows.length * df.cols.length : ℕ) : ℚ) := by
          exact_mod_cast missingCellCount_le df
        have h1 : (missingCellCount df : ℚ) / ((df.rows.length * df.cols.length : ℕ) : ℚ) ≤ 1 :=
          (div_le_one hQt).mpr hm
        have h2 : 0 ≤ (missingCellCount df : ℚ) / ((df.rows.length * df.cols.length : ℕ) : ℚ) := by
          positivity
        constructor <;> nlinarith

/-- C1, witness: on a two-row one-column dataset with one missing cell the
amended formula applies and yields 50. -/
theorem completion_rate_amended_witness :
    calculate_completion_rate dfHalfMissing =
      100 - ((missingCellCount dfHalfMissing : ℚ) /
        ((dfHalfMissing.rows.length * dfHalfMissing.cols.length : ℕ) : ℚ)) * 100 ∧
    (0 ≤ calculate_completion_rate dfHalfMissing ∧
      calculate_completion_rate dfHalfMissing ≤ 100) ∧
    calculate_completion_rate dfHalfMissing = 50 :=
  ⟨(completion_rate_amended dfHalfMissing).2.1 (by decide) (by decide),
   (completion_rate_amended dfHalfMissing).2.2, by decide⟩

/-- C2: `calculate_comprehensive_stats` does raise on a dataset without the
`likelihood_to_recommend` column: the dictionary literal calls
`calculate_nps(df)` unguarded, which for a non-empty frame accesses the
missing column and raises `KeyError`.  (Only the empty dataset avoids the
access, yielding `nps_score = 0.0` and zero promoter/passive/detractor
counts, as the second conjunct records.) -/
theorem comprehensive_stats_missing_nps_column_raises :
    calculate_comprehensive_stats dfNoNps = Except.error "KeyError: likelihood_to_recommend" ∧
    calculate_comprehensive_stats dfEmptySat = Except.ok sEmptySat :=
  ⟨rfl, rfl⟩

/-- C3: the engine is not total on the empty dataset:
`get_sentiment_analysis` divides `positive` by `len(df)` and raises
`ZeroDivisionError` on an empty frame with a feedback column, and
`calculate_comprehensive_stats` raises `ValueError` via
`region_stats.idxmax()` on an empty frame with region and satisfaction
columns. -/
theorem engine_empty_dataset_faults :
    get_sentiment_analysis dfEmptyFeedback =
        Except.error "ZeroDivisionError: division by zero" ∧
    calculate_comprehensive_stats dfEmptyRegion =
        Except.error "ValueError: attempt to get argmax of an empty sequence" :=
  ⟨rfl, rfl⟩

/-- C4: on any dataset carrying the NPS column, `calculate_nps` returns
`(promoters − detractors) / total × 100` for a non-empty dataset, returns
exactly `0.0` for an empty one, and the returned value always lies in
`[-100, 100]`. -/
theorem calculate_nps_formula_and_bounds (df : DataFrame) (c : String) (hc : c ∈ df.cols) :
    (df.rows.length = 0 → calculate_nps df c = Except.ok 0) ∧
    (df.rows.length ≠ 0 →
       calculate_nps df c = Except.ok
         ((((promotersCount df c : ℚ) - (detractorsCount df c : ℚ)) / (df.rows.length : ℚ)) * 100) ∧
       -100 ≤ (((promotersCount df c : ℚ) - (detractorsCount df c : ℚ)) / (df.rows.length : ℚ)) * 100 ∧
       (((promotersCount df c : ℚ) - (detractorsCount df c : ℚ)) / (df.rows.length : ℚ)) * 100 ≤ 100) := by
  have hlenP : promotersCount df c ≤ df.rows.length := by
    have h := List.countP_le_length (l := column df c) (p := fun x => cellGeB x 9)
    simpa [promotersCount, column] using h
  have hlenD : detractorsCount df c ≤ df.rows.length := by
    have h := List.countP_le_length (l := column df c) (p := fun x => cellLeB x 6)
    simpa [detractorsCount, column] using h
  refine ⟨fun h0 => by simp [calculate_nps, h0], fun h0 => ?_⟩
  have hQt : (0:ℚ) < (df.rows.length : ℚ) := by
    exact_mod_cast Nat.pos_of_ne_zero h0
  have hPQ : (promotersCount df c : ℚ) ≤ (df.rows.length : ℚ) := by exact_mod_cast hlenP
  have hDQ : (detractorsCount df c : ℚ) ≤ (df.rows.length : ℚ) := by exact_mod_cast hlenD
  have hP0 : (0:ℚ) ≤ (promotersCount df c : ℚ) := by positivity
  have hD0 : (0:ℚ) ≤ (detractorsCount df c : ℚ) := by positivity
  have hlo : -1 ≤ ((promotersCount df c : ℚ) - (detractorsCount df c : ℚ)) / (df.rows.length : ℚ) := by
    rw [le_div_iff₀ hQt]; linarith
  have hhi : ((promotersCount df c : ℚ) - (detractorsCount df c : ℚ)) / (df.rows.length : ℚ) ≤ 1 := by
    rw [div_le_one hQt]; linarith
  refine ⟨by simp [calculate_nps, h0, hc], by nlinarith, by nlinarith⟩

/-- C4, witness: on the ten-record specification scenario
(`[9,9,9,8,8,7,6,5,3,2]`) the formula applies, with 3 promoters, 4
detractors and NPS −10. -/
theorem calculate_nps_formula_and_bounds_witness :
    (calculate_nps dfNpsScenario "likelihood_to_recommend" = Except.ok
       ((((promotersCount dfNpsScenario "likelihood_to_recommend" : ℚ)
            - (detractorsCount dfNpsScenario "likelihood_to_recommend" : ℚ))
          / (dfNpsScenario.rows.length : ℚ)) * 100) ∧
     -100 ≤ (((promotersCount dfNpsScenario "likelihood_to_recommend" : ℚ)
            - (detractorsCount dfNpsScenario "likelihood_to_recommend" : ℚ))
          / (dfNpsScenario.rows.length : ℚ)) * 100 ∧
     (((promotersCount dfNpsScenario "likelihood_to_recommend" : ℚ)
            - (detractorsCount dfNpsScenario "likelihood_to_recommend" : ℚ))
          / (dfNpsScenario.rows.length : ℚ)) * 100 ≤ 100) ∧
    promotersCount dfNpsScenario "likelihood_to_recommend" = 3 ∧
    passivesCount dfNpsScenario "likelihood_to_recommend" = 3 ∧
    detractorsCount dfNpsScenario "likelihood_to_recommend" = 4 ∧
    calculate_nps dfNpsScenario "likelihood_to_recommend" = Except.ok (-10) :=
  ⟨(calculate_nps_formula_and_bounds dfNpsScenario "likelihood_to_recommend"
      (by decide)).2 (by decide),
   by decide, by decide, by decide, rfl⟩

/-- C5: `get_sentiment_analysis` returns the not-applicable signal (`None`)
exactly when the dataset has no `feedback` column; when the column is
present and the dataset non-empty, the positive, neutral and negative
counts sum to the number of records. -/
theorem sentiment_signal_and_counts (df : DataFrame) :
    (get_sentiment_analysis df = Except.ok none ↔ "feedback" ∉ df.cols) ∧
    ("feedback" ∈ df.cols → df.rows.length ≠ 0 →
       get_sentiment_analysis df = Except.ok (some (sentimentSummaryOf df)) ∧
       (sentimentSummaryOf df).positive + (sentimentSummaryOf df).neutral +
         (sentimentSummaryOf df).negative = df.rows.length) := by
  constructor
  · unfold get_sentiment_analysis
    split_ifs with hf h0 <;> simp [hf]
  · intro hf h0
    refine ⟨by simp [get_sentiment_analysis, hf, h0], ?_⟩
    have h := countP_sentiment_partition (sentimentsOf df)
    simpa [sentimentSummaryOf, sentimentsOf, column] using h

/-- C5, witness: on a one-row dataset with a feedback column the summary is
returned and its counts sum to 1. -/
theorem sentiment_signal_and_counts_witness :
    get_sentiment_analysis dfFeedback = Except.ok (some (sentimentSummaryOf dfFeedback)) ∧
    (sentimentSummaryOf dfFeedback).positive + (sentimentSummaryOf dfFeedback).neutral +
      (sentimentSummaryOf dfFeedback).negative = dfFeedback.rows.length :=
  (sentiment_signal_and_counts dfFeedback).2 (by decide) (by decide)

/-- C6, counterexample: on the empty dataset both `region` and
`satisfaction` columns exist, yet `calculate_comprehensive_stats` produces
no record at all: `region_stats.idxmax()` raises `ValueError`, so there is
no `best_region` arg-max value as the claim asserts for every such
dataset. -/
theorem best_region_empty_counterexample :
    "region" ∈ dfEmptyRegion.cols ∧ "satisfaction" ∈ dfEmptyRegion.cols ∧
    calculate_comprehensive_stats dfEmptyRegion =
      Except.error "ValueError: attempt to get argmax of an empty sequence" :=
  ⟨by decide, by decide, rfl⟩

/-- C6, amended: whenever `calculate_comprehensive_stats` returns a record
(it raises instead when the grouped means are empty or all missing, e.g. on
the empty dataset): if both `region` and `satisfaction` exist, `best_region`
is the first group, in sorted order of the distinct non-missing region
values, whose group-mean satisfaction is maximal among the defined group
means, and `best_region_score` is that maximal mean; if either column is
absent, `best_region` is the literal `"N/A"` with score `0.0`; likewise for
`age_group` / `top_age_group` / `top_age_score`.  The last two conjuncts
record that the group key list is sorted and consists exactly of the
distinct non-missing values of the region column. -/
theorem best_region_argmax_amended (df : DataFrame) (s : StatisticsRecord)
    (h : calculate_comprehensive_stats df = Except.ok s) :
    (("region" ∈ df.cols ∧ "satisfaction" ∈ df.cols) →
       IsFirstMaxO (groupMeans df "region" "satisfaction") s.best_region s.best_region_score) ∧
    (¬("region" ∈ df.cols ∧ "satisfaction" ∈ df.cols) →
       s.best_region = Cell.str "N/A" ∧ s.best_region_score = some 0) ∧
    (("age_group" ∈ df.cols ∧ "satisfaction" ∈ df.cols) →
       IsFirstMaxO (groupMeans df "age_group" "satisfaction") s.top_age_group s.top_age_score) ∧
    (¬("age_group" ∈ df.cols ∧ "satisfaction" ∈ df.cols) →
       s.top_age_group = Cell.str "N/A" ∧ s.top_age_score = some 0) ∧
    List.Sorted cellLe ((groupMeans df "region" "satisfaction").map Prod.fst) ∧
    (∀ k : Cell, k ∈ (groupMeans df "region" "satisfaction").map Prod.fst ↔
       k ∈ column df "region" ∧ notNaB k = true) := by
  obtain ⟨pr, pa, hr, ha, h1, h2, h3, h4⟩ := comp_stats_fields df s h
  refine ⟨?_, ?_, ?_, ?_, ?_, ?_⟩
  · intro hb; rw [h1, h2]; exact bestSegment_present df _ _ hb pr hr
  · intro hb; rw [h1, h2]; exact bestSegment_absent df _ _ hb pr hr
  · intro hb; rw [h3, h4]; exact bestSegment_present df _ _ hb pa ha
  · intro hb; rw [h3, h4]; exact bestSegment_absent df _ _ hb pa ha
  · rw [groupMeans_keys]; exact groupKeys_sorted df _
  · intro k; rw [groupMeans_keys]; exact mem_groupKeys df _ k

/-- C6, witness: on the two-region dataset the computation succeeds and
`best_region = "b"` with score 5 is the first maximal group mean. -/
theorem best_region_argmax_amended_witness :
    calculate_comprehensive_stats dfRegions = Except.ok sRegions ∧
    IsFirstMaxO (groupMeans dfRegions "region" "satisfaction")
      sRegions.best_region sRegions.best_region_score :=
  ⟨rfl, (best_region_argmax_amended dfRegions sRegions rfl).1 ⟨by decide, by decide⟩⟩

/-- C7, counterexample: on a one-record dataset whose segment column has no
missing values but whose `satisfaction` cell is missing, the table's
`count` aggregates sum to 0, not to the record count 1: pandas `count`
counts non-missing cells per metric column. -/
theorem segment_counts_counterexample :
    analyze_by_segment dfMissingMetric "region" =
      Except.ok [(Cell.str "a", [("satisfaction", ⟨none, 0⟩)])] ∧
    column dfMissingMetric "region" = [Cell.str "a"] ∧
    dfMissingMetric.rows.length = 1 ∧
    tableCountSum [(Cell.str "a", [("satisfaction", (⟨none, 0⟩ : AggCell))])] "satisfaction" ≠
      dfMissingMetric.rows.length :=
  ⟨rfl, rfl, rfl, by decide⟩

/-- C7, amended: with a present segment column without missing values and
at least one numeric metric column, `analyze_by_segment` returns one row
per distinct segment value, and for each available metric column the
per-row `count` aggregates sum to the number of non-missing cells of that
column (hence to the record count only if the metric has no missing
values); with no numeric metric column it returns an empty table. -/
theorem analyze_by_segment_amended (df : DataFrame) (seg : String) :
    ((seg ∈ df.cols ∧ availableCols df ≠ [] ∧ ∀ x ∈ column df seg, x ≠ Cell.na) →
       analyze_by_segment df seg = Except.ok (segTable df seg) ∧
       (segTable df seg).length = ((column df seg).dedup).length ∧
       ∀ c ∈ availableCols df,
         tableCountSum (segTable df seg) c = (column df c).countP notNaB) ∧
    (availableCols df = [] → analyze_by_segment df seg = Except.ok []) := by
  constructor
  · rintro ⟨hseg, hav, hnomiss⟩
    refine ⟨by simp [analyze_by_segment, List.isEmpty_iff, hav, hseg], ?_, ?_⟩
    · have hfilter : (column df seg).filter notNaB = column df seg :=
        List.filter_eq_self.mpr (fun x hx => by
          cases hxx : x with
          | na => exact absurd hxx (hnomiss x hx)
          | num q => simp [notNaB]
          | str t => simp [notNaB])
      calc (segTable df seg).length = (groupKeys df seg).length := by simp [segTable]
        _ = (((column df seg).filter notNaB).dedup).length :=
            (List.perm_insertionSort cellLe _).length_eq
        _ = ((column df seg).dedup).length := by rw [hfilter]
    · intro c hc
      have hnodav : (availableCols df).Nodup :=
        List.Nodup.filter _ (by decide : numeric_cols.Nodup)
      have h1 : tableCountSum (segTable df seg) c
          = ((groupKeys df seg).map (fun k =>
              (((groupRows df seg k).map (fun r => getCellIn df r c)).countP notNaB))).sum := by
        unfold tableCountSum segTable
        rw [List.map_map]
        apply congrArg
        apply List.map_congr_left
        intro k _
        exact rowCountOf_map_nodup (availableCols df) hnodav c hc _
      have h2 : ∀ k ∈ groupKeys df seg,
          ((groupRows df seg k).map (fun r => getCellIn df r c)).countP notNaB
            = (groupRows df seg k).countP (fun r => notNaB (getCellIn df r c)) := by
        intro k _
        rw [List.countP_map]
        rfl
      have hnd : (groupKeys df seg).Nodup :=
        ((List.perm_insertionSort cellLe _).nodup_iff).mpr (List.nodup_dedup _)
      have hk : ∀ r ∈ df.rows, getCellIn df r seg ∈ groupKeys df seg := by
        intro r hr
        rw [mem_groupKeys]
        refine ⟨List.mem_map_of_mem _ hr, ?_⟩
        have hx := hnomiss (getCellIn df r seg) (List.mem_map_of_mem _ hr)
        cases hg : getCellIn df r seg with
        | na => exact absurd hg hx
        | num q => simp [notNaB]
        | str t => simp [notNaB]
      have hsum := sum_countP_groups df.rows (groupKeys df seg) hnd
        (fun r => getCellIn df r seg) hk (fun r => notNaB (getCellIn df r c))
      rw [h1, List.map_congr_left h2]
      have hcol : df.rows.countP (fun r => notNaB (getCellIn df r c))
          = (column df c).countP notNaB := by
        rw [column, List.countP_map]
        rfl
      rw [← hcol]
      exact hsum
  · intro hav
    simp [analyze_by_segment, List.isEmpty_iff, hav]

/-- C7, witness: on the three-record two-segment dataset the table has two
rows and the satisfaction counts sum to 3, the number of non-missing
satisfaction cells (equal here to the record count). -/
theorem analyze_by_segment_amended_witness :
    analyze_by_segment dfSegments "region" = Except.ok (segTable dfSegments "region") ∧
    (segTable dfSegments "region").length = ((column dfSegments "region").dedup).length ∧
    tableCountSum (segTable dfSegments "region") "satisfaction" =
      (column dfSegments "satisfaction").countP notNaB :=
  ⟨((analyze_by_segment_amended dfSegments "region").1
      ⟨by decide, by decide, by decide⟩).1,
   ((analyze_by_segment_amended dfSegments "region").1
      ⟨by decide, by decide, by decide⟩).2.1,
   ((analyze_by_segment_amended dfSegments "region").1
      ⟨by decide, by decide, by decide⟩).2.2 "satisfaction" (by decide)⟩

/-- C8: `calculate_comprehensive_stats` is deterministic: two datasets with
identical column and row content produce identical results (the model has
no hidden state or randomness). -/
theorem comprehensive_stats_deterministic (d1 d2 : DataFrame)
    (hc : d1.cols = d2.cols) (hr : d1.rows = d2.rows) :
    calculate_comprehensive_stats d1 = calculate_comprehensive_stats d2 := by
  cases d1; cases d2; cases hc; cases hr; rfl

/-- C8, witness: two calls on the same concrete dataset agree. -/
theorem comprehensive_stats_deterministic_witness :
    calculate_comprehensive_stats dfNoNps = calculate_comprehensive_stats dfNoNps :=
  comprehensive_stats_deterministic dfNoNps dfNoNps rfl rfl

/-- C9: per-record sentiment classification: missing feedback is neutral
(as is numeric feedback, whose rendering contains no sentiment word); for
text the label is positive, negative or neutral exactly as the
positive-word match count compares to the negative-word match count; and
the two specification examples classify positive and neutral. -/
theorem classify_sentiment_spec :
    classify_sentiment Cell.na = Sentiment.neutral ∧
    (∀ q : ℚ, classify_sentiment (Cell.num q) = Sentiment.neutral) ∧
    (∀ s : String,
       (classify_sentiment (Cell.str s) = Sentiment.positive ↔ negCount s < posCount s) ∧
       (classify_sentiment (Cell.str s) = Sentiment.negative ↔ posCount s < negCount s) ∧
       (classify_sentiment (Cell.str s) = Sentiment.neutral ↔ posCount s = negCount s)) ∧
    classify_sentiment (Cell.str "Excellent product quality!") = Sentiment.positive ∧
    classify_sentiment (Cell.str "Could be better") = Sentiment.neutral := by
  refine ⟨rfl, fun q => rfl, fun s => ?_, by decide, by decide⟩
  unfold classify_sentiment
  dsimp only
  split_ifs with h1 h2 <;> refine ⟨?_, ?_, ?_⟩ <;> simp <;> omega

/-- C9, witness: the positive characterization instantiated at a concrete
text. -/
theorem classify_sentiment_spec_witness :
    classify_sentiment (Cell.str "love it") = Sentiment.positive ↔
      negCount "love it" < posCount "love it" :=
  (classify_sentiment_spec.2.2.1 "love it").1

/-- C10: since `"satisfied"` is on the positive list and matching is by
substring containment, a text containing `"not satisfied"` also scores one
positive match; if it contains no other word of either list, both counts
are 1 and the classification is neutral, never negative. -/
theorem not_satisfied_substring_neutral (s : String)
    (hns : substrB "not satisfied" (lowerData s) = true)
    (hpos : ∀ w ∈ positive_words, w ≠ "satisfied" → substrB w (lowerData s) = false)
    (hneg : ∀ w ∈ negative_words, w ≠ "not satisfied" → substrB w (lowerData s) = false) :
    posCount s = 1 ∧ negCount s = 1 ∧
      classify_sentiment (Cell.str s) = Sentiment.neutral := by
  have hsat : substrB "satisfied" (lowerData s) = true :=
    substr_satisfied_of_not_satisfied hns
  have p1 := hpos "excellent" (by decide) (by decide)
  have p2 := hpos "great" (by decide) (by decide)
  have p3 := hpos "amazing" (by decide) (by decide)
  have p4 := hpos "fantastic" (by decide) (by decide)
  have p5 := hpos "love" (by decide) (by decide)
  have p6 := hpos "perfect" (by decide) (by decide)
  have p7 := hpos "outstanding" (by decide) (by decide)
  have p8 := hpos "wonderful" (by decide) (by decide)
  have p9 := hpos "recommend" (by decide) (by decide)
  have p10 := hpos "exceeded" (by decide) (by decide)
  have n1 := hneg "poor" (by decide) (by decide)
  have n2 := hneg "bad" (by decide) (by decide)
  have n3 := hneg "terrible" (by decide) (by decide)
  have n4 := hneg "disappointed" (by decide) (by decide)
  have n5 := hneg "awful" (by decide) (by decide)
  have n6 := hneg "horrible" (by decide) (by decide)
  have n7 := hneg "worse" (by decide) (by decide)
  have n8 := hneg "problem" (by decide) (by decide)
  have n9 := hneg "issue" (by decide) (by decide)
  have n10 := hneg "complaint" (by decide) (by decide)
  have hp : posCount s = 1 := by
    simp [posCount, positive_words, List.countP_cons, List.countP_nil,
      p1, p2, p3, p4, p5, p6, p7, p8, p9, p10, hsat]
  have hn : negCount s = 1 := by
    simp [negCount, negative_words, List.countP_cons, List.countP_nil,
      n1, n2, n3, n4, n5, n6, n7, n8, n9, n10, hns]
  refine ⟨hp, hn, ?_⟩
  simp [classify_sentiment, hp, hn]

/-- C10, witness: the text "I am not satisfied" contains `"not satisfied"`,
no other listed word, and classifies neutral with one positive and one
negative match. -/
theorem not_satisfied_substring_neutral_witness :
    substrB "not satisfied" (lowerData "I am not satisfied") = true ∧
    posCount "I am not satisfied" = 1 ∧
    negCount "I am not satisfied" = 1 ∧
    classify_sentiment (Cell.str "I am not satisfied") = Sentiment.neutral :=
  ⟨by decide,
   not_satisfied_substring_neutral "I am not satisfied" (by decide) (by decide) (by decide)⟩

end SurveyAnalyzer
